import Mathlib

/-!
Shallow embedding of the todo-management service (FastAPI/SQLModel repository
`hktn2-phase1`): data model (`app/models/todo.py`, `app/models/schemas.py`),
repository (`app/repository/todo_repository.py`), service
(`app/services/todo_service.py`), AI assistant (`app/services/ai_service.py`)
and MCP tool adapter (`app/services/mcp_service.py`).

Conventions of the embedding:
* timestamps (`datetime`) are abstract instants modelled as `Nat`; the
  `datetime.utcnow()` calls are modelled by passing the current instant
  explicitly;
* the database session is modelled as a list of rows, mutation of a fetched
  row as replacement of the first matching row;
* Python exceptions are modelled with `Except String`; a `.error` value is an
  exception propagating out of the modelled function;
* Python `sorted` raising `TypeError` on incomparable keys (datetime vs str)
  is modelled by an `Except`-valued comparison and insertion sort (for the
  two-element inputs examined here the comparison pairs coincide with
  CPython's sort).
-/

namespace TodoApp

/-- Source: `app/models/todo.py`: `class Priority(str, Enum)`. -/
inductive Priority where
  | low | medium | high | urgent
deriving DecidableEq, Repr

/-- The enum member's string value (`Priority.LOW = "low"`, ...). -/
def Priority.value : Priority → String
  | .low => "low"
  | .medium => "medium"
  | .high => "high"
  | .urgent => "urgent"

/-- Source: `Priority(token)` coercion: raises `ValueError` (modelled as `none`) on an
unrecognised token. -/
def Priority.ofToken : String → Option Priority
  | "low" => some .low
  | "medium" => some .medium
  | "high" => some .high
  | "urgent" => some .urgent
  | _ => none

/-- Source: `app/models/todo.py`: `class Status(str, Enum)`. -/
inductive Status where
  | pending | in_progress | completed | cancelled
deriving DecidableEq, Repr

def Status.value : Status → String
  | .pending => "pending"
  | .in_progress => "in_progress"
  | .completed => "completed"
  | .cancelled => "cancelled"

/-- Source: `Status(token)` coercion: `none` models a raised `ValueError`. -/
def Status.ofToken : String → Option Status
  | "pending" => some .pending
  | "in_progress" => some .in_progress
  | "completed" => some .completed
  | "cancelled" => some .cancelled
  | _ => none

/-- Abstract instant standing for a Python `datetime`. -/
abbrev DateTime := Nat

/-- Source: `app/models/todo.py`: the persisted `Todo` row.  `id` is the
store-assigned primary key (rows in the store always have one). -/
structure Todo where
  id : Nat
  title : String
  description : Option String := none
  due_date : Option DateTime := none
  priority : Priority := .medium
  status : Status := .pending
  tags : List String := []
  created_at : DateTime
  modified_at : Option DateTime
  is_deleted : Bool := false
deriving DecidableEq, Repr

/-- The database session's visible state: the rows of the `todos` table. -/
abbrev DB := List Todo

/-- Source: `app/models/schemas.py`: `TodoFilters`. -/
structure TodoFilters where
  status : Option Status := none
  priority : Option Priority := none
  tags : Option (List String) := none
deriving DecidableEq, Repr

namespace TodoRepository

/-- Source: `TodoRepository.get_by_id`: first row with the given id that is not
soft-deleted, `None` otherwise. -/
def get_by_id (db : DB) (todo_id : Nat) : Option Todo :=
  db.find? (fun t => t.id == todo_id && !t.is_deleted)

/-- Replace the first row satisfying `p` by `t'` (the ORM mutates the row
object returned by `get_by_id` in place). -/
def replaceFirst (p : Todo → Bool) (t' : Todo) : DB → DB
  | [] => []
  | r :: rs => if p r then t' :: rs else r :: replaceFirst p t' rs

/-- The partial-update dictionary passed to `TodoRepository.update`.  A field
that is `none` is a key absent from the dict; `extra` collects keys that name
no `Todo` attribute (they fail the `hasattr` test and are ignored). -/
structure UpdateDict where
  title : Option String := none
  description : Option (Option String) := none
  due_date : Option (Option DateTime) := none
  priority : Option Priority := none
  status : Option Status := none
  tags : Option (List String) := none
  id_key : Option Nat := none
  created_at_key : Option DateTime := none
  modified_at : Option (Option DateTime) := none
  is_deleted : Option Bool := none
  extra : List String := []
deriving Repr

/-- The `for key, value in update_data.items()` loop of
`TodoRepository.update`: every key naming an existing attribute other than
`"id"` and `"created_at"` is applied with `setattr`; `"id"`, `"created_at"`
and unknown keys are skipped. -/
def applyUpdate (t : Todo) (u : UpdateDict) : Todo :=
  { t with
    title := u.title.getD t.title
    description := u.description.getD t.description
    due_date := u.due_date.getD t.due_date
    priority := u.priority.getD t.priority
    status := u.status.getD t.status
    tags := u.tags.getD t.tags
    modified_at := u.modified_at.getD t.modified_at
    is_deleted := u.is_deleted.getD t.is_deleted }

/-- Source: `TodoRepository.update`: fetch via `get_by_id`; if absent return `None`;
otherwise apply the dict's fields, then unconditionally set
`modified_at = datetime.utcnow()` (the `now` argument), and commit. -/
def update (db : DB) (todo_id : Nat) (u : UpdateDict) (now : DateTime) :
    Option Todo × DB :=
  match get_by_id db todo_id with
  | none => (none, db)
  | some t =>
    let t' := { applyUpdate t u with modified_at := some now }
    (some t', replaceFirst (fun r => r.id == todo_id && !r.is_deleted) t' db)

/-- Source: `TodoRepository.delete`: soft delete.  Fetch via `get_by_id`; if absent
return `False`; otherwise set `is_deleted = True`, refresh `modified_at`,
commit, return `True`. -/
def delete (db : DB) (todo_id : Nat) (now : DateTime) : Bool × DB :=
  match get_by_id db todo_id with
  | none => (false, db)
  | some t =>
    let t' := { t with is_deleted := true, modified_at := some now }
    (true, replaceFirst (fun r => r.id == todo_id && !r.is_deleted) t' db)

/-- Does a row pass the status/priority `where` clauses of
`list_all`/`count_total` for the given filters? -/
def matchesStatusPriority (f : TodoFilters) (t : Todo) : Bool :=
  (match f.status with | some s => t.status == s | none => true) &&
  (match f.priority with | some p => t.priority == p | none => true)

/-- Does a row pass the tags `where` clauses of `list_all`?  The loop adds one
`Todo.tags.contains(tag)` clause per requested tag (conjunction); the
store-level containment test is abstracted as the `tagMatch` parameter. -/
def matchesTags (tagMatch : List String → String → Bool) (f : TodoFilters)
    (t : Todo) : Bool :=
  match f.tags with
  | some ts => ts.all (fun tag => tagMatch t.tags tag)
  | none => true

/-- Source: `TodoRepository.list_all` restricted to its filtering clauses: non-deleted
rows matching status, priority and all requested tags.  The optional
`order_by` step only reorders the selected rows and is modelled by the
`orderBy` parameter applied at the end. -/
def list_all (tagMatch : List String → String → Bool)
    (orderBy : List Todo → List Todo) (db : DB) (f : TodoFilters) :
    List Todo :=
  orderBy (db.filter (fun t =>
    !t.is_deleted && matchesStatusPriority f t && matchesTags tagMatch f t))

/-- Source: `TodoRepository.count_total`: counts non-deleted rows matching the status
and priority clauses only — the tags clause of `list_all` is absent here. -/
def count_total (db : DB) (f : TodoFilters) : Nat :=
  (db.filter (fun t => !t.is_deleted && matchesStatusPriority f t)).length

end TodoRepository

/-- Source: `app/models/schemas.py`: `TodoCreate` after pydantic validation (`status`
is not a field of this schema; extra input fields are discarded). -/
structure TodoCreate where
  title : String
  description : Option String := none
  due_date : Option DateTime := none
  priority : Priority := .medium
  tags : List String := []
deriving DecidableEq, Repr

/-- A raw creation request body, before validation: every field optional, plus
a possible caller-supplied `status` member (which `TodoCreate` does not
declare). -/
structure RawCreateInput where
  title : Option String := none
  description : Option String := none
  due_date : Option DateTime := none
  priority : Option Priority := none
  tags : Option (List String) := none
  status : Option Status := none
deriving Repr

/-- Pydantic validation of a raw body against `TodoCreate`: `title` required
with length 1–200, `description` at most 2000 characters, `priority` defaults
to `medium`, `tags` to `[]`; the `status` member is dropped (not a schema
field). `none` models a 422 validation rejection. -/
def validateTodoCreate (raw : RawCreateInput) : Option TodoCreate :=
  match raw.title with
  | none => none
  | some t =>
    if 1 ≤ t.length ∧ t.length ≤ 200 then
      match raw.description with
      | some d =>
        if d.length ≤ 2000 then
          some { title := t, description := some d, due_date := raw.due_date,
                 priority := raw.priority.getD .medium,
                 tags := raw.tags.getD [] }
        else none
      | none =>
        some { title := t, description := none, due_date := raw.due_date,
               priority := raw.priority.getD .medium,
               tags := raw.tags.getD [] }
    else none

/-- Source: `app/models/schemas.py`: `TodoUpdate` — all fields optional. -/
structure TodoUpdate where
  title : Option String := none
  description : Option String := none
  due_date : Option DateTime := none
  priority : Option Priority := none
  status : Option Status := none
  tags : Option (List String) := none
deriving DecidableEq, Repr

/-- Source: `app/models/schemas.py`: `TodoResponse`. -/
structure TodoResponse where
  id : Nat
  title : String
  description : Option String
  due_date : Option DateTime
  priority : Priority
  status : Status
  tags : List String
  created_at : DateTime
  modified_at : Option DateTime
deriving DecidableEq, Repr

/-- The `metadata` dict of `TodoListResponse`. -/
structure ListMetadata where
  total : Nat
  page : Nat
  page_size : Nat
deriving DecidableEq, Repr

/-- Source: `app/models/schemas.py`: `TodoListResponse`. -/
structure TodoListResponse where
  data : List TodoResponse
  metadata : ListMetadata
deriving DecidableEq, Repr

/-- Domain errors raised by `TodoService` (`TodoNotFoundError` carries the
message `f"Todo with id {todo_id} not found"`, modelled by the id). -/
inductive ServiceError where
  | todoNotFound (todo_id : Nat)
deriving DecidableEq, Repr

/-- A repository operation performed during a service call (for frame
properties about which repository methods a service method invokes). -/
inductive RepoOp where
  | getById (todo_id : Nat)
  | create
  | listAll
  | countTotal
  | update (todo_id : Nat)
  | delete (todo_id : Nat)
deriving DecidableEq, Repr

namespace TodoService

/-- Source: `TodoService._to_response`: `TodoResponse.model_validate(todo)`. -/
def toResponse (t : Todo) : TodoResponse :=
  { id := t.id, title := t.title, description := t.description,
    due_date := t.due_date, priority := t.priority, status := t.status,
    tags := t.tags, created_at := t.created_at, modified_at := t.modified_at }

/-- Python truthiness of a `str`-mixin enum member: falsy iff its string value
is empty (never, for `Priority`). -/
def priorityTruthy (p : Priority) : Bool :=
  p.value.length != 0

/-- Source: `TodoService.create_todo`: applies `priority = todo_data.priority or
Priority.MEDIUM` and `tags = todo_data.tags or []`, forces
`status=Status.PENDING`, and delegates to `repository.create`, which inserts
the row with the store-assigned id `newId` and `created_at`/`modified_at`
defaulted to `utcnow` (the `now` argument).  Returns the created row's
response and the new table state. -/
def create_todo (db : DB) (todo_data : TodoCreate) (newId : Nat)
    (now : DateTime) : TodoResponse × DB :=
  let priority := if priorityTruthy todo_data.priority then todo_data.priority
                  else Priority.medium
  let todo : Todo :=
    { id := newId, title := todo_data.title,
      description := todo_data.description, due_date := todo_data.due_date,
      priority := priority, status := Status.pending,
      tags := if todo_data.tags == [] then [] else todo_data.tags,
      created_at := now, modified_at := some now, is_deleted := false }
  (toResponse todo, db ++ [todo])

/-- Source: `TodoService.get_todo`: raises `TodoNotFoundError` when `get_by_id`
returns `None`. -/
def get_todo (db : DB) (todo_id : Nat) : Except ServiceError TodoResponse :=
  match TodoRepository.get_by_id db todo_id with
  | none => .error (.todoNotFound todo_id)
  | some t => .ok (toResponse t)

/-- Source: `update_data.model_dump(exclude_none=True)` of a `TodoUpdate` produces an
empty dict iff every field is `None`. -/
def emptyUpdate (u : TodoUpdate) : Bool :=
  u.title.isNone && u.description.isNone && u.due_date.isNone &&
  u.priority.isNone && u.status.isNone && u.tags.isNone

/-- The repository update dict built from
`update_data.model_dump(exclude_none=True)`: exactly the non-`None` fields of
the `TodoUpdate` schema appear as keys. -/
def toUpdateDict (u : TodoUpdate) : TodoRepository.UpdateDict :=
  { title := u.title, description := u.description.map some,
    due_date := u.due_date.map some, priority := u.priority,
    status := u.status, tags := u.tags }

/-- Source: `TodoService.update_todo`.  Also returns the table state after the call
and the trace of repository operations invoked. -/
def update_todo (db : DB) (todo_id : Nat) (update_data : TodoUpdate)
    (now : DateTime) :
    Except ServiceError TodoResponse × DB × List RepoOp :=
  if emptyUpdate update_data then
    (get_todo db todo_id, db, [.getById todo_id])
  else
    match TodoRepository.update db todo_id (toUpdateDict update_data) now with
    | (none, db') => (.error (.todoNotFound todo_id), db', [.update todo_id])
    | (some t, db') => (.ok (toResponse t), db', [.update todo_id])

/-- Source: `TodoService.delete_todo`: raises `TodoNotFoundError` when the repository
reports no matching row. -/
def delete_todo (db : DB) (todo_id : Nat) (now : DateTime) :
    Except ServiceError Unit × DB :=
  match TodoRepository.delete db todo_id now with
  | (false, db') => (.error (.todoNotFound todo_id), db')
  | (true, db') => (.ok (), db')

/-- Source: `TodoService.list_todos`: fetches `list_all(filters, sort)` and
`count_total(filters)` and wraps them with
`{"total": total, "page": 1, "page_size": len(todos)}`. -/
def list_todos (tagMatch : List String → String → Bool)
    (orderBy : List Todo → List Todo) (db : DB) (f : TodoFilters) :
    TodoListResponse :=
  let todos := TodoRepository.list_all tagMatch orderBy db f
  let total := TodoRepository.count_total db f
  { data := todos.map toResponse,
    metadata := { total := total, page := 1, page_size := todos.length } }

end TodoService

/-! ### AI assistant (`app/services/ai_service.py`) -/

/-- Source: `app/models/schemas.py`: `SuggestionItem`. -/
structure SuggestionItem where
  title : String
  description : String
  priority : Priority
deriving DecidableEq, Repr

/-- Source: `app/models/schemas.py`: `SuggestionResponse`. -/
structure SuggestionResponse where
  suggestions : List SuggestionItem
deriving DecidableEq, Repr

/-- Source: `app/models/schemas.py`: `TodoSummary` (input shape of prioritization). -/
structure TodoSummary where
  id : Nat
  title : String
  due_date : Option DateTime := none
  priority : Priority
deriving DecidableEq, Repr

/-- Source: `app/models/schemas.py`: `PrioritizedTodo`. -/
structure PrioritizedTodo where
  todo_id : Nat
  title : String
  recommended_priority : Priority
  reasoning : String
deriving DecidableEq, Repr

/-- Source: `app/models/schemas.py`: `PrioritizationResponse`. -/
structure PrioritizationResponse where
  ranked_todos : List PrioritizedTodo
deriving DecidableEq, Repr

/-- Source: `app/models/schemas.py`: `Subtask`. -/
structure Subtask where
  title : String
  estimated_order : Nat
  dependencies : List Nat := []
deriving DecidableEq, Repr

/-- Source: `app/models/schemas.py`: `BreakdownResponse`. -/
structure BreakdownResponse where
  subtasks : List Subtask
deriving DecidableEq, Repr

/-- A value in `AIService.cache`.  The real cache stores
`response.model_dump()` dicts and rebuilds the pydantic model on a hit; the
round trip is the identity, so the model stores the response itself, tagged by
which shape the dump came from. -/
inductive CacheVal where
  | sugg (v : SuggestionResponse)
  | prio (v : PrioritizationResponse)
  | brk (v : BreakdownResponse)
deriving DecidableEq, Repr

/-- The AI service's mutable observable state: the in-memory cache, the total
number of calls made to the external provider, and the sequence of backoff
waits (in seconds) performed so far. -/
structure AIState where
  cache : List (String × CacheVal) := []
  calls : Nat := 0
  delays : List Nat := []
deriving Repr

/-- The external chat-completion provider, as an oracle: the outcome of the
`i`-th provider invocation (counted across the whole service lifetime) is
`provider i` — either the raised exception's message or the response text. -/
abbrev Provider := Nat → Except String String

namespace AIService

/-- Source: `max_retries = 3` in `AIService._call_openai`. -/
def maxRetries : Nat := 3

/-- One iteration of `for attempt in range(max_retries)` in `_call_openai`,
with `remaining` iterations left (`attempt + remaining = maxRetries`):
invoke the provider; on success return the text; on exception, if another
attempt remains wait `base_delay * 2**attempt` seconds and loop, otherwise
raise `AIServiceError(f"Failed to call OpenAI after {max_retries} attempts:
{e}")`. -/
def callGo (provider : Provider) : Nat → Nat → AIState →
    Except String String × AIState
  | 0, _, st => (.error "Failed to call OpenAI after 3 attempts: ", st)
  | remaining + 1, attempt, st =>
    let r := provider st.calls
    let st' := { st with calls := st.calls + 1 }
    match r with
    | .ok text => (.ok text, st')
    | .error e =>
      if remaining == 0 then
        (.error ("Failed to call OpenAI after 3 attempts: " ++ e), st')
      else
        callGo provider remaining (attempt + 1)
          { st' with delays := st'.delays ++ [2 ^ attempt] }

/-- Source: `AIService._call_openai`: up to `maxRetries` provider invocations with
exponential backoff from a 1-second base. -/
def callOpenai (provider : Provider) (st : AIState) :
    Except String String × AIState :=
  callGo provider maxRetries 0 st

/-- Source: `AIService._get_fallback_suggestions`: three fixed generic suggestions. -/
def fallbackSuggestions : SuggestionResponse :=
  { suggestions :=
      [ { title := "Review your task description",
          description := "Break down what you need to accomplish",
          priority := .high },
        { title := "Set clear goals",
          description := "Define specific, measurable objectives",
          priority := .medium },
        { title := "Create an action plan",
          description := "Outline steps needed to complete the task",
          priority := .medium } ] }

/-- Source: `AIService._get_fallback_breakdown`: three fixed subtasks in a linear
dependency chain. -/
def fallbackBreakdown : BreakdownResponse :=
  { subtasks :=
      [ { title := "Define requirements", estimated_order := 1,
          dependencies := [] },
        { title := "Plan implementation", estimated_order := 2,
          dependencies := [0] },
        { title := "Execute the plan", estimated_order := 3,
          dependencies := [1] } ] }

/-- A Python value appearing as the second component of the fallback sort key:
`t.due_date or "9999-12-31"` is a `datetime` when the todo is dated and the
`str` sentinel otherwise. -/
inductive PyVal where
  | dt (d : DateTime)
  | s (v : String)
deriving DecidableEq, Repr

/-- Python `==` between such values: same-type comparison compares the values,
cross-type comparison is `False` (no exception). -/
def pyValEq : PyVal → PyVal → Bool
  | .dt a, .dt b => a == b
  | .s a, .s b => a == b
  | _, _ => false

/-- Python `<` between such values: same-type comparison compares the values,
`datetime < str` (either way) raises `TypeError`. -/
def pyValLt : PyVal → PyVal → Except String Bool
  | .dt a, .dt b => .ok (decide (a < b))
  | .s a, .s b => .ok (decide (a < b))
  | _, _ => .error "TypeError: unorderable types datetime and str"

/-- Python `<` on the `(rank, due)` key tuples: positional comparison, first
differing component decides, comparing the second components may raise. -/
def pyKeyLt (a b : Nat × PyVal) : Except String Bool :=
  if a.1 == b.1 then
    if pyValEq a.2 b.2 then .ok false else pyValLt a.2 b.2
  else .ok (decide (a.1 < b.1))

/-- Stable insertion of `x` into `l` under a possibly-raising `<`. -/
def insertLt (lt : α → α → Except String Bool) (x : α) :
    List α → Except String (List α)
  | [] => .ok [x]
  | y :: ys => do
    if ← lt x y then
      return x :: y :: ys
    else
      return y :: (← insertLt lt x ys)

/-- Stable sort under a possibly-raising `<` (Python `sorted`; on the inputs
considered here the comparisons performed coincide with CPython's). -/
def pySorted (lt : α → α → Except String Bool) : List α →
    Except String (List α)
  | [] => .ok []
  | x :: xs => do insertLt lt x (← pySorted lt xs)

/-- Source: `priority_order = {"urgent": 0, "high": 1, "medium": 2, "low": 3}` and the
`.get(t.priority, 2)` lookup (every member is a key, so the default is
unreachable). -/
def priorityOrder : Priority → Nat
  | .urgent => 0
  | .high => 1
  | .medium => 2
  | .low => 3

/-- The sort key `lambda t: (priority_order.get(t.priority, 2), t.due_date or
"9999-12-31")` of `_get_fallback_prioritization`. -/
def fallbackKey (t : TodoSummary) : Nat × PyVal :=
  (priorityOrder t.priority,
   match t.due_date with
   | some d => .dt d
   | none => .s "9999-12-31")

/-- Source: `AIService._get_fallback_prioritization`: sort by the fallback key and
annotate each todo with its current priority and a templated reasoning
string.  A `TypeError` from `sorted` propagates as `.error`. -/
def fallbackPrioritization (todos : List TodoSummary) :
    Except String PrioritizationResponse := do
  let sorted ← pySorted (fun a b => pyKeyLt (fallbackKey a) (fallbackKey b))
    todos
  return { ranked_todos := sorted.map (fun t =>
    { todo_id := t.id, title := t.title, recommended_priority := t.priority,
      reasoning := "Based on priority (" ++ t.priority.value ++
        ") and due date" }) }

/-- Source: `AIService.generate_suggestions`.  `parse` models
`_parse_suggestion_response` (`json.loads` + pydantic construction) on the
provider's text.  Outer `.error`: an exception escaping the method (only
possible on a cache entry whose dump does not rebuild as a
`SuggestionResponse`, which the `suggest:` key prefix prevents). -/
def generate_suggestions (provider : Provider)
    (parse : String → Except String SuggestionResponse)
    (description : String) (st : AIState) :
    Except String (SuggestionResponse × AIState) :=
  let key := "suggest:" ++ description
  match (st.cache.lookup key : Option CacheVal) with
  | some (.sugg v) => .ok (v, st)
  | some _ => .error "cache entry does not rebuild as SuggestionResponse"
  | none =>
    match callOpenai provider st with
    | (.ok text, st') =>
      match parse text with
      | .ok v =>
        .ok (v, { st' with cache := st'.cache ++ [(key, .sugg v)] })
      | .error _ => .ok (fallbackSuggestions, st')
    | (.error _, st') => .ok (fallbackSuggestions, st')

/-- Source: `AIService.prioritize_todos`.  `keyOf` models
`f"prioritize:{hash(str(request.todos))}"` past the fixed prefix; `parse`
models `_parse_prioritization_response`.  A `TypeError` inside the fallback
path propagates. -/
def prioritize_todos (provider : Provider)
    (parse : String → Except String PrioritizationResponse)
    (keyOf : List TodoSummary → String)
    (todos : List TodoSummary) (st : AIState) :
    Except String (PrioritizationResponse × AIState) :=
  let key := "prioritize:" ++ keyOf todos
  match (st.cache.lookup key : Option CacheVal) with
  | some (.prio v) => .ok (v, st)
  | some _ => .error "cache entry does not rebuild as PrioritizationResponse"
  | none =>
    match callOpenai provider st with
    | (.ok text, st') =>
      match parse text with
      | .ok v =>
        .ok (v, { st' with cache := st'.cache ++ [(key, .prio v)] })
      | .error _ => (fallbackPrioritization todos).map (fun r => (r, st'))
    | (.error _, st') => (fallbackPrioritization todos).map (fun r => (r, st'))

/-- Source: `AIService.breakdown_task`.  `parse` models
`_parse_breakdown_response`. -/
def breakdown_task (provider : Provider)
    (parse : String → Except String BreakdownResponse)
    (task : String) (st : AIState) :
    Except String (BreakdownResponse × AIState) :=
  let key := "breakdown:" ++ task
  match (st.cache.lookup key : Option CacheVal) with
  | some (.brk v) => .ok (v, st)
  | some _ => .error "cache entry does not rebuild as BreakdownResponse"
  | none =>
    match callOpenai provider st with
    | (.ok text, st') =>
      match parse text with
      | .ok v =>
        .ok (v, { st' with cache := st'.cache ++ [(key, .brk v)] })
      | .error _ => .ok (fallbackBreakdown, st')
    | (.error _, st') => .ok (fallbackBreakdown, st')

end AIService

/-! ### MCP tool adapter (`app/services/mcp_service.py`) -/

/-- The parameter dict of a tool call.  A `none` field is a key absent from
the dict; `priority` and `status` arrive as raw string tokens and are coerced
at this boundary. -/
structure ToolParams where
  title : Option String := none
  description : Option String := none
  due_date : Option DateTime := none
  priority : Option String := none
  status : Option String := none
  tags : Option (List String) := none
  id : Option Nat := none
deriving Repr

/-- The payload of a successful tool result. -/
inductive ToolData where
  | todo (t : TodoResponse)
  | todoList (todos : List TodoResponse) (total : Nat)
  | deleted (id : Nat)
deriving DecidableEq, Repr

/-- A structured tool result: `MCPService._format_success` /
`_format_error`. -/
inductive ToolResult where
  | success (data : ToolData)
  | error (message : String)
deriving DecidableEq, Repr

/-- The service layer as seen from the tool adapter: each method either
returns or raises (`.error` carries `str(e)` of the raised exception).
Quantifying over this oracle covers every possible service behavior,
including `TodoNotFoundError` and store-level failures. -/
structure ServiceOracle where
  createTodo : TodoCreate → Except String TodoResponse
  listTodos : TodoFilters → Except String TodoListResponse
  updateTodo : Nat → TodoUpdate → Except String TodoResponse
  deleteTodo : Nat → Except String Unit

/-- A service-layer invocation made during a tool call. -/
inductive SvcCall where
  | create
  | list
  | update (id : Nat)
  | delete (id : Nat)
deriving DecidableEq, Repr

namespace MCPService

/-- Pydantic validation performed by `TodoCreate(...)` inside
`create_todo_tool`: title length 1–200, description at most 2000.  `.error`
models a raised `ValidationError`. -/
def buildTodoCreate (title : String) (description : Option String)
    (due_date : Option DateTime) (priority : Priority)
    (tags : List String) : Except String TodoCreate :=
  if 1 ≤ title.length ∧ title.length ≤ 200 then
    match description with
    | some d =>
      if d.length ≤ 2000 then
        .ok { title := title, description := some d, due_date := due_date,
              priority := priority, tags := tags }
      else .error "ValidationError: description too long"
    | none =>
      .ok { title := title, description := none, due_date := due_date,
            priority := priority, tags := tags }
  else .error "ValidationError: title length out of range"

/-- Pydantic validation performed by `TodoUpdate(**update_dict)` inside
`update_todo_tool`. -/
def buildTodoUpdate (title : Option String) (description : Option String)
    (status : Option Status) (priority : Option Priority)
    (tags : Option (List String)) : Except String TodoUpdate :=
  match title with
  | some t =>
    if 1 ≤ t.length ∧ t.length ≤ 200 then
      match description with
      | some d =>
        if d.length ≤ 2000 then
          .ok { title := some t, description := some d, status := status,
                priority := priority, tags := tags }
        else .error "ValidationError: description too long"
      | none =>
        .ok { title := some t, status := status, priority := priority,
              tags := tags }
    else .error "ValidationError: title length out of range"
  | none =>
    match description with
    | some d =>
      if d.length ≤ 2000 then
        .ok { description := some d, status := status, priority := priority,
              tags := tags }
      else .error "ValidationError: description too long"
    | none => .ok { status := status, priority := priority, tags := tags }

/-- Source: `MCPService.create_todo_tool`: checks `title`, coerces
`Priority(params.get("priority", "medium"))`, builds the `TodoCreate`, and
delegates.  The returned `.error` is an exception escaping the handler (to be
caught by `handle_tool_call`); the `List SvcCall` records service-layer
invocations. -/
def create_todo_tool (svc : ServiceOracle) (params : ToolParams) :
    Except String ToolResult × List SvcCall :=
  match params.title with
  | none => (.ok (.error "Missing required field: title"), [])
  | some title =>
    match Priority.ofToken (params.priority.getD "medium") with
    | none => (.error "ValueError: invalid priority", [])
    | some priority =>
      match buildTodoCreate title params.description params.due_date priority
          (params.tags.getD []) with
      | .error e => (.error e, [])
      | .ok todo_data =>
        match svc.createTodo todo_data with
        | .error e => (.error e, [.create])
        | .ok todo => (.ok (.success (.todo todo)), [.create])

/-- Source: `MCPService.list_todos_tool`: coerces optional status/priority tokens,
builds `TodoFilters`, delegates, and returns
`{"todos": ..., "total": len(result.data)}`. -/
def list_todos_tool (svc : ServiceOracle) (params : ToolParams) :
    Except String ToolResult × List SvcCall :=
  match params.status with
  | some tok =>
    match Status.ofToken tok with
    | none => (.error "ValueError: invalid status", [])
    | some status => listWithStatus svc params (some status)
  | none => listWithStatus svc params none
where
  /-- Continuation after the status token has been coerced. -/
  listWithStatus (svc : ServiceOracle) (params : ToolParams)
      (status : Option Status) : Except String ToolResult × List SvcCall :=
    match params.priority with
    | some tok =>
      match Priority.ofToken tok with
      | none => (.error "ValueError: invalid priority", [])
      | some priority => listRun svc params status (some priority)
    | none => listRun svc params status none
  /-- Delegation once both tokens are coerced. -/
  listRun (svc : ServiceOracle) (params : ToolParams)
      (status : Option Status) (priority : Option Priority) :
      Except String ToolResult × List SvcCall :=
    let filters : TodoFilters :=
      { status := status, priority := priority, tags := params.tags }
    match svc.listTodos filters with
    | .error e => (.error e, [.list])
    | .ok result =>
      (.ok (.success (.todoList result.data result.data.length)), [.list])

/-- Source: `MCPService.update_todo_tool`: checks `id`, coerces the status/priority
tokens found among the keys `["title", "description", "status", "priority",
"tags"]`, builds the `TodoUpdate`, and delegates. -/
def update_todo_tool (svc : ServiceOracle) (params : ToolParams) :
    Except String ToolResult × List SvcCall :=
  match params.id with
  | none => (.ok (.error "Missing required field: id"), [])
  | some id =>
    match params.status with
    | some tok =>
      match Status.ofToken tok with
      | none => (.error "ValueError: invalid status", [])
      | some status => updWithStatus svc params id (some status)
    | none => updWithStatus svc params id none
where
  /-- Continuation after the status token has been coerced. -/
  updWithStatus (svc : ServiceOracle) (params : ToolParams) (id : Nat)
      (status : Option Status) : Except String ToolResult × List SvcCall :=
    match params.priority with
    | some tok =>
      match Priority.ofToken tok with
      | none => (.error "ValueError: invalid priority", [])
      | some priority => updRun svc params id status (some priority)
    | none => updRun svc params id status none
  /-- Delegation once both tokens are coerced. -/
  updRun (svc : ServiceOracle) (params : ToolParams) (id : Nat)
      (status : Option Status) (priority : Option Priority) :
      Except String ToolResult × List SvcCall :=
    match buildTodoUpdate params.title params.description status priority
        params.tags with
    | .error e => (.error e, [])
    | .ok update_data =>
      match svc.updateTodo id update_data with
      | .error e => (.error e, [.update id])
      | .ok todo => (.ok (.success (.todo todo)), [.update id])

/-- Source: `MCPService.delete_todo_tool`: checks `id` and delegates. -/
def delete_todo_tool (svc : ServiceOracle) (params : ToolParams) :
    Except String ToolResult × List SvcCall :=
  match params.id with
  | none => (.ok (.error "Missing required field: id"), [])
  | some id =>
    match svc.deleteTodo id with
    | .error e => (.error e, [.delete id])
    | .ok _ => (.ok (.success (.deleted id)), [.delete id])

/-- Source: `MCPService.handle_tool_call`: dispatch on the tool name; an unknown name
raises `MCPServiceError` outward (the lookup happens before the `try` block,
modelled by the outer `.error`); for a known tool the handler runs inside
`try`, and any exception it raises is converted by `_format_error` into a
structured error result. -/
def handle_tool_call (svc : ServiceOracle) (tool_name : String)
    (params : ToolParams) : Except String ToolResult × List SvcCall :=
  let handler : Option (ServiceOracle → ToolParams →
      Except String ToolResult × List SvcCall) :=
    match tool_name with
    | "create_todo" => some create_todo_tool
    | "list_todos" => some list_todos_tool
    | "update_todo" => some update_todo_tool
    | "delete_todo" => some delete_todo_tool
    | _ => none
  match handler with
  | none => (.error ("Unknown tool: " ++ tool_name), [])
  | some h =>
    match h svc params with
    | (.ok result, log) => (.ok result, log)
    | (.error e, log) => (.ok (.error e), log)

end MCPService

/-! ### Helper lemmas -/

/-- If no row of `db` carries the identifier, `get_by_id` returns `None`. -/
lemma get_by_id_none_of_forall (db : DB) (todo_id : Nat)
    (h : ∀ t ∈ db, t.id ≠ todo_id) :
    TodoRepository.get_by_id db todo_id = none := by
  unfold TodoRepository.get_by_id
  rw [List.find?_eq_none]
  intro t ht hc
  simp only [Bool.and_eq_true, beq_iff_eq] at hc
  exact h t ht hc.1

/-- Source: `replaceFirst` leaves any per-row observation `f` unchanged when the
replacement agrees with the replaced row on `f`. -/
lemma replaceFirst_map_inv {α : Type} (p : Todo → Bool) (t' : Todo)
    (f : Todo → α) (db : DB)
    (h : ∀ s, db.find? p = some s → f t' = f s) :
    (TodoRepository.replaceFirst p t' db).map f = db.map f := by
  induction db with
  | nil => rfl
  | cons r rs ih =>
    unfold TodoRepository.replaceFirst
    by_cases hp : p r = true
    · rw [if_pos hp]
      have := h r (List.find?_cons_of_pos _ hp)
      simp [this]
    · rw [if_neg hp]
      simp only [List.map_cons]
      rw [ih (fun s hs => h s (by rw [List.find?_cons_of_neg _ hp]; exact hs))]

/-- A single repository update preserves every row's identifier and creation
timestamp. -/
lemma update_preserves_id_created (db : DB) (todo_id : Nat)
    (u : TodoRepository.UpdateDict) (now : DateTime) :
    ((TodoRepository.update db todo_id u now).2).map
        (fun t => (t.id, t.created_at)) =
      db.map (fun t => (t.id, t.created_at)) := by
  unfold TodoRepository.update
  cases hfind : TodoRepository.get_by_id db todo_id with
  | none => simp
  | some t =>
    simp only
    apply replaceFirst_map_inv
    intro s hs
    have h1 : some t = some s := by
      rw [← hfind]; exact hs.symm ▸ rfl
    cases h1
    rfl

/-- Soft delete on a present, non-deleted row: reports `True`, keeps the row
(flagged), and hides the identifier from `get_by_id`. -/
lemma delete_found_spec (db : DB) (todo_id : Nat) (now : DateTime) (t : Todo)
    (hnodup : (db.map Todo.id).Nodup)
    (hfind : TodoRepository.get_by_id db todo_id = some t) :
    (TodoRepository.delete db todo_id now).1 = true ∧
    ({ t with is_deleted := true, modified_at := some now } ∈
       (TodoRepository.delete db todo_id now).2) ∧
    TodoRepository.get_by_id (TodoRepository.delete db todo_id now).2 todo_id
      = none := by
  induction db with
  | nil => cases hfind
  | cons r rs ih =>
    have hnodup' : (rs.map Todo.id).Nodup :=
      (List.nodup_cons.mp (by simpa using hnodup)).2
    by_cases hp : (r.id == todo_id && !r.is_deleted) = true
    · have hget : TodoRepository.get_by_id (r :: rs) todo_id = some r :=
        List.find?_cons_of_pos _ hp
      have hrt : r = t := by
        have := hget.symm.trans hfind
        injection this
      subst hrt
      have hdel : TodoRepository.delete (r :: rs) todo_id now =
          (true, { r with is_deleted := true, modified_at := some now } ::
            rs) := by
        rw [TodoRepository.delete.eq_def, hget]
        dsimp only [TodoRepository.replaceFirst]
        rw [if_pos hp]
      refine ⟨by rw [hdel], by rw [hdel]; exact List.mem_cons_self _ _, ?_⟩
      rw [hdel]
      have hr : r.id = todo_id := by
        simp only [Bool.and_eq_true, beq_iff_eq] at hp
        exact hp.1
      unfold TodoRepository.get_by_id
      rw [List.find?_eq_none]
      intro s hs hc
      simp only [Bool.and_eq_true, beq_iff_eq, Bool.not_eq_true'] at hc
      rcases List.mem_cons.mp hs with hs1 | hs2
      · -- the flagged row fails the `is_deleted == False` clause
        rw [hs1] at hc
        exact absurd hc.2 (by simp)
      · -- no other row carries the identifier, by primary-key uniqueness
        have hmem : s.id ∈ rs.map Todo.id := List.mem_map_of_mem _ hs2
        rw [hc.1, ← hr] at hmem
        exact (List.nodup_cons.mp (by simpa using hnodup)).1 hmem
    · have hfind' : TodoRepository.get_by_id rs todo_id = some t := by
        have : TodoRepository.get_by_id (r :: rs) todo_id =
            TodoRepository.get_by_id rs todo_id :=
          List.find?_cons_of_neg _ hp
        rw [← this]; exact hfind
      obtain ⟨ht1, ht2, ht3⟩ := ih hnodup' hfind'
      have hdel : TodoRepository.delete (r :: rs) todo_id now =
          (true, r :: (TodoRepository.delete rs todo_id now).2) := by
        rw [TodoRepository.delete.eq_def, hfind]
        dsimp only [TodoRepository.replaceFirst]
        rw [if_neg hp]
        rw [TodoRepository.delete.eq_def, hfind']
      refine ⟨by rw [hdel], ?_, ?_⟩
      · rw [hdel]; exact List.mem_cons_of_mem _ ht2
      · rw [hdel]
        have : TodoRepository.get_by_id
            (r :: (TodoRepository.delete rs todo_id now).2) todo_id =
            TodoRepository.get_by_id (TodoRepository.delete rs todo_id now).2
              todo_id :=
          List.find?_cons_of_neg _ hp
        rw [this]; exact ht3

/-! ### Claim theorems -/

/-- C1: for every creation input accepted by `create_todo`, the returned
entity has status `pending` regardless of any caller-supplied status value,
priority `medium` when the input supplies no priority, and an empty tag
sequence when the input supplies no tags. -/
theorem C1_create_defaults (raw : RawCreateInput) (d : TodoCreate)
    (hv : validateTodoCreate raw = some d) (db : DB) (newId : Nat)
    (now : DateTime) :
    (TodoService.create_todo db d newId now).1.status = .pending ∧
    (raw.priority = none →
      (TodoService.create_todo db d newId now).1.priority = .medium) ∧
    (raw.tags = none →
      (TodoService.create_todo db d newId now).1.tags = []) := by
  have hfields : d.priority = raw.priority.getD .medium ∧
      d.tags = raw.tags.getD [] := by
    cases ht : raw.title with
    | none => simp [validateTodoCreate, ht] at hv
    | some ttl =>
      cases hdsc : raw.description with
      | some dsc =>
        simp only [validateTodoCreate, ht, hdsc] at hv
        split at hv
        · split at hv
          · injection hv with hv
            subst hv
            exact ⟨rfl, rfl⟩
          · cases hv
        · cases hv
      | none =>
        simp only [validateTodoCreate, ht, hdsc] at hv
        split at hv
        · injection hv with hv
          subst hv
          exact ⟨rfl, rfl⟩
        · cases hv
  refine ⟨rfl, ?_, ?_⟩
  · intro hp
    have hm : d.priority = .medium := by rw [hfields.1, hp]; rfl
    simp [TodoService.create_todo, TodoService.toResponse,
      TodoService.priorityTruthy, hm, Priority.value]
  · intro htg
    have hm : d.tags = [] := by rw [hfields.2, htg]; rfl
    simp [TodoService.create_todo, TodoService.toResponse, hm]

/-- Witness for C1 at a concrete input that supplies a status and neither
priority nor tags. -/
theorem C1_create_defaults_witness :
    validateTodoCreate
        { title := some "Buy milk", status := some .completed } =
      some { title := "Buy milk" } ∧
    ((TodoService.create_todo [] { title := "Buy milk" } 1 0).1.status =
        .pending ∧
      (TodoService.create_todo [] { title := "Buy milk" } 1 0).1.priority =
        .medium ∧
      (TodoService.create_todo [] { title := "Buy milk" } 1 0).1.tags = []) :=
  have h := C1_create_defaults
    { title := some "Buy milk", status := some .completed }
    { title := "Buy milk" } (by decide) [] 1 0
  ⟨by decide, h.1, h.2.1 rfl, h.2.2 rfl⟩

/-- C2: after a successful delete the row still exists with its deletion flag
set, `get_by_id` returns absence, `get_todo` fails with `TodoNotFoundError`
for that identifier, and a second delete reports not-found (`False`). -/
theorem C2_soft_delete (db : DB) (todo_id : Nat) (now now' : DateTime)
    (t : Todo) (hnodup : (db.map Todo.id).Nodup)
    (hfind : TodoRepository.get_by_id db todo_id = some t) :
    (TodoRepository.delete db todo_id now).1 = true ∧
    (∃ r ∈ (TodoRepository.delete db todo_id now).2,
      r.id = todo_id ∧ r.is_deleted = true) ∧
    TodoRepository.get_by_id (TodoRepository.delete db todo_id now).2 todo_id
      = none ∧
    TodoService.get_todo (TodoRepository.delete db todo_id now).2 todo_id =
      .error (.todoNotFound todo_id) ∧
    (TodoRepository.delete (TodoRepository.delete db todo_id now).2 todo_id
      now').1 = false := by
  obtain ⟨h1, h2, h3⟩ := delete_found_spec db todo_id now t hnodup hfind
  have htid : t.id = todo_id := by
    have hpred := List.find?_some hfind
    simp only [Bool.and_eq_true, beq_iff_eq] at hpred
    exact hpred.1
  refine ⟨h1, ⟨_, h2, htid, rfl⟩, h3, ?_, ?_⟩
  · unfold TodoService.get_todo
    rw [h3]
  · rw [TodoRepository.delete.eq_def, h3]

/-- Witness for C2 on a one-row table. -/
theorem C2_soft_delete_witness :
    (TodoRepository.delete
        [{ id := 1, title := "pay rent", created_at := 0,
           modified_at := some 0 }] 1 7).1 = true ∧
    (∃ r ∈ (TodoRepository.delete
        [{ id := 1, title := "pay rent", created_at := 0,
           modified_at := some 0 }] 1 7).2,
      r.id = 1 ∧ r.is_deleted = true) ∧
    TodoRepository.get_by_id (TodoRepository.delete
        [{ id := 1, title := "pay rent", created_at := 0,
           modified_at := some 0 }] 1 7).2 1 = none ∧
    TodoService.get_todo (TodoRepository.delete
        [{ id := 1, title := "pay rent", created_at := 0,
           modified_at := some 0 }] 1 7).2 1 =
      .error (.todoNotFound 1) ∧
    (TodoRepository.delete (TodoRepository.delete
        [{ id := 1, title := "pay rent", created_at := 0,
           modified_at := some 0 }] 1 7).2 1 9).1 = false :=
  C2_soft_delete
    [{ id := 1, title := "pay rent", created_at := 0, modified_at := some 0 }]
    1 7 9
    { id := 1, title := "pay rent", created_at := 0, modified_at := some 0 }
    (by decide) (by decide)

/-- C4 counterexample: with a non-empty table and an update carrying zero set
fields, the service does make a repository call — the `get_by_id` read used to
return the current entity — so "makes no repository call" fails as stated. -/
theorem C4_counterexample :
    (TodoService.update_todo
        [{ id := 1, title := "write report", created_at := 0,
           modified_at := some 0 }] 1 {} 5).2.2 ≠ ([] : List RepoOp) := by
  decide

/-- C4 (amended): an update with zero set fields short-circuits — the table is
unchanged (so no modification timestamp is bumped), the only repository
interaction is the `get_by_id` read, no repository update/write is made, and
the current entity is returned unchanged. -/
theorem C4_empty_update_frame (db : DB) (todo_id : Nat) (u : TodoUpdate)
    (now : DateTime) (h : TodoService.emptyUpdate u = true) :
    TodoService.update_todo db todo_id u now =
      (TodoService.get_todo db todo_id, db, [.getById todo_id]) ∧
    (∀ t, TodoRepository.get_by_id db todo_id = some t →
      (TodoService.update_todo db todo_id u now).1 =
        .ok (TodoService.toResponse t)) := by
  have heq : TodoService.update_todo db todo_id u now =
      (TodoService.get_todo db todo_id, db, [.getById todo_id]) := by
    unfold TodoService.update_todo
    rw [if_pos h]
  refine ⟨heq, ?_⟩
  intro t ht
  rw [heq]
  unfold TodoService.get_todo
  rw [ht]

/-- Witness for C4 (amended) at a concrete one-row table. -/
theorem C4_empty_update_frame_witness :
    TodoService.update_todo
        [{ id := 1, title := "write report", created_at := 0,
           modified_at := some 0 }] 1 {} 5 =
      (TodoService.get_todo
        [{ id := 1, title := "write report", created_at := 0,
           modified_at := some 0 }] 1,
       [{ id := 1, title := "write report", created_at := 0,
          modified_at := some 0 }], [.getById 1]) :=
  (C4_empty_update_frame
    [{ id := 1, title := "write report", created_at := 0,
       modified_at := some 0 }] 1 {} 5 (by decide)).1

/-- C5: a repository update applies exactly the fields present in the partial
map, ignores attempts to change the identifier or creation timestamp,
refreshes the modification timestamp, returns absence when no matching
non-deleted row exists, and creation timestamps never change across any
sequence of updates. -/
theorem C5_repo_update_frame (db : DB) (todo_id : Nat)
    (u : TodoRepository.UpdateDict) (now : DateTime) :
    (TodoRepository.get_by_id db todo_id = none →
      TodoRepository.update db todo_id u now = (none, db)) ∧
    (∀ t, TodoRepository.get_by_id db todo_id = some t →
      (TodoRepository.update db todo_id u now).1 = some
        { id := t.id, title := u.title.getD t.title,
          description := u.description.getD t.description,
          due_date := u.due_date.getD t.due_date,
          priority := u.priority.getD t.priority,
          status := u.status.getD t.status,
          tags := u.tags.getD t.tags,
          created_at := t.created_at,
          modified_at := some now,
          is_deleted := u.is_deleted.getD t.is_deleted }) ∧
    (∀ ops : List (Nat × TodoRepository.UpdateDict × DateTime),
      ((ops.foldl
          (fun d op => (TodoRepository.update d op.1 op.2.1 op.2.2).2)
          db).map (fun t => (t.id, t.created_at))) =
        db.map (fun t => (t.id, t.created_at))) := by
  refine ⟨?_, ?_, ?_⟩
  · intro h
    rw [TodoRepository.update.eq_def, h]
  · intro t ht
    rw [TodoRepository.update.eq_def, ht]
    rfl
  · intro ops
    induction ops generalizing db with
    | nil => rfl
    | cons op rest ih =>
      rw [List.foldl_cons]
      rw [ih ((TodoRepository.update db op.1 op.2.1 op.2.2).2),
        update_preserves_id_created]

/-- Witness for C5 at a concrete table: hit and miss, plus a two-step update
sequence. -/
theorem C5_repo_update_frame_witness :
    (TodoRepository.update
        [{ id := 1, title := "old", created_at := 3, modified_at := some 3 }]
        1 { title := some "new" } 8).1 = some
      { id := 1, title := "new", created_at := 3, modified_at := some 8 } ∧
    TodoRepository.update
        [{ id := 1, title := "old", created_at := 3, modified_at := some 3 }]
        2 { title := some "new" } 8 =
      (none,
       [{ id := 1, title := "old", created_at := 3, modified_at := some 3 }]) :=
  have h := C5_repo_update_frame
    [{ id := 1, title := "old", created_at := 3, modified_at := some 3 }]
    1 { title := some "new" } 8
  have h2 := C5_repo_update_frame
    [{ id := 1, title := "old", created_at := 3, modified_at := some 3 }]
    2 { title := some "new" } 8
  ⟨h.2.1 { id := 1, title := "old", created_at := 3, modified_at := some 3 }
     (by decide), h2.1 (by decide)⟩

/-- C10 counterexample: a repository-level update supplying
`modified_at := 7` does not leave 7 in the row — the loop's assignment is
unconditionally overwritten with the current time (99 here), so the claim
that an update can overwrite the modification timestamp fails. -/
theorem C10_counterexample :
    ((TodoRepository.update
        [{ id := 1, title := "t", created_at := 0, modified_at := some 0 }]
        1 { modified_at := some (some 7) } 99).1.map Todo.modified_at =
      some (some 99)) ∧ some (99 : Nat) ≠ some 7 := by
  decide

/-- C10 (amended): every key other than `id` and `created_at` naming an
existing attribute is applied, including `is_deleted` — a repository-level
update can set or clear the deletion flag — while a supplied `modified_at`
value is applied but then unconditionally overwritten with the current time;
keys naming no attribute are ignored. -/
theorem C10_repo_update_fields (db : DB) (todo_id : Nat)
    (u : TodoRepository.UpdateDict) (now : DateTime) (t : Todo)
    (h : TodoRepository.get_by_id db todo_id = some t) :
    ((TodoRepository.update db todo_id u now).1.map Todo.is_deleted =
      some (u.is_deleted.getD t.is_deleted)) ∧
    ((TodoRepository.update db todo_id u now).1.map Todo.modified_at =
      some (some now)) ∧
    ((TodoRepository.update db todo_id u now).1.map Todo.id = some t.id) ∧
    ((TodoRepository.update db todo_id u now).1.map Todo.created_at =
      some t.created_at) ∧
    (∀ ks, TodoRepository.update db todo_id { u with extra := ks } now =
      TodoRepository.update db todo_id u now) := by
  refine ⟨?_, ?_, ?_, ?_, fun ks => rfl⟩ <;>
    rw [TodoRepository.update.eq_def, h] <;> rfl

/-- Witness for C10 (amended): clearing the deletion flag through the
repository on a concrete row. -/
theorem C10_repo_update_fields_witness :
    ((TodoRepository.update
        [{ id := 1, title := "t", created_at := 0, modified_at := some 0 }]
        1 { is_deleted := some true } 4).1.map Todo.is_deleted =
      some true) ∧
    ((TodoRepository.update
        [{ id := 1, title := "t", created_at := 0, modified_at := some 0 }]
        1 { is_deleted := some true } 4).1.map Todo.modified_at =
      some (some 4)) :=
  have h := C10_repo_update_fields
    [{ id := 1, title := "t", created_at := 0, modified_at := some 0 }]
    1 { is_deleted := some true } 4
    { id := 1, title := "t", created_at := 0, modified_at := some 0 }
    (by decide)
  ⟨h.1, h.2.1⟩

/-- C6: `count_total` counts non-deleted rows matching only the status and
priority criteria (the tags criterion is excluded), `list_all` additionally
applies the tags criterion, and `list_todos` returns metadata whose total is
this tags-unfiltered count, page fixed at 1, and page_size the number of
returned items. -/
theorem C6_count_tags_asymmetry (tagMatch : List String → String → Bool)
    (orderBy : List Todo → List Todo) (db : DB) (f : TodoFilters) :
    TodoRepository.count_total db f =
      TodoRepository.count_total db { f with tags := none } ∧
    TodoRepository.count_total db f =
      (TodoRepository.list_all tagMatch (fun l => l) db
        { f with tags := none }).length ∧
    (∀ t, t ∈ TodoRepository.list_all tagMatch (fun l => l) db f ↔
      t ∈ db ∧ t.is_deleted = false ∧
      TodoRepository.matchesStatusPriority f t = true ∧
      TodoRepository.matchesTags tagMatch f t = true) ∧
    (TodoService.list_todos tagMatch orderBy db f).metadata =
      { total := TodoRepository.count_total db f, page := 1,
        page_size :=
          (TodoRepository.list_all tagMatch orderBy db f).length } ∧
    (TodoService.list_todos tagMatch orderBy db f).metadata.page_size =
      (TodoService.list_todos tagMatch orderBy db f).data.length := by
  have hmsp : TodoRepository.matchesStatusPriority { f with tags := none } =
      TodoRepository.matchesStatusPriority f := rfl
  refine ⟨rfl, ?_, ?_, rfl, ?_⟩
  · simp [TodoRepository.list_all, TodoRepository.count_total,
      TodoRepository.matchesTags, hmsp]
  · intro t
    simp [TodoRepository.list_all, List.mem_filter, Bool.and_eq_true,
      Bool.not_eq_true', and_assoc]
  · simp [TodoService.list_todos]

/-- Witness for C6: a two-row table where one row matches the tag filter and
the other does not, so list and count disagree. -/
theorem C6_count_tags_asymmetry_witness :
    (TodoService.list_todos
        (fun tags tag => tags.contains tag) (fun l => l)
        [{ id := 1, title := "a", tags := ["work"], created_at := 0,
           modified_at := some 0 },
         { id := 2, title := "b", tags := [], created_at := 1,
           modified_at := some 1 }]
        { tags := some ["work"] }).metadata =
      { total := 2, page := 1, page_size := 1 } :=
  have h := C6_count_tags_asymmetry
    (fun tags tag => tags.contains tag) (fun l => l)
    [{ id := 1, title := "a", tags := ["work"], created_at := 0,
       modified_at := some 0 },
     { id := 2, title := "b", tags := [], created_at := 1,
       modified_at := some 1 }]
    { tags := some ["work"] }
  h.2.2.2.1.trans (by decide)

/-- C9: each of the four tool verbs validates its required parameter before
delegating (a missing `title` for create and a missing `id` for update/delete
yield a structured error with no service invocation), a service-layer
exception is converted to the same structured error shape, and a tool call on
the four verbs never raises outward. -/
theorem C9_tool_call_errors (svc : ServiceOracle) (params : ToolParams) :
    (params.title = none →
      MCPService.handle_tool_call svc "create_todo" params =
        (.ok (.error "Missing required field: title"), [])) ∧
    (params.id = none →
      MCPService.handle_tool_call svc "update_todo" params =
        (.ok (.error "Missing required field: id"), []) ∧
      MCPService.handle_tool_call svc "delete_todo" params =
        (.ok (.error "Missing required field: id"), [])) ∧
    (∀ todo_id e, params.id = some todo_id →
      svc.deleteTodo todo_id = .error e →
      MCPService.handle_tool_call svc "delete_todo" params =
        (.ok (.error e), [.delete todo_id])) ∧
    (∀ name, name = "create_todo" ∨ name = "list_todos" ∨
        name = "update_todo" ∨ name = "delete_todo" →
      ∃ result, (MCPService.handle_tool_call svc name params).1 =
        .ok result) ∧
    (∀ title todo_data e, params.title = some title →
      params.priority = none →
      MCPService.buildTodoCreate title params.description params.due_date
        .medium (params.tags.getD []) = .ok todo_data →
      svc.createTodo todo_data = .error e →
      MCPService.handle_tool_call svc "create_todo" params =
        (.ok (.error e), [.create])) ∧
    (∀ todo_id upd e, params.id = some todo_id → params.status = none →
      params.priority = none →
      MCPService.buildTodoUpdate params.title params.description none none
        params.tags = .ok upd →
      svc.updateTodo todo_id upd = .error e →
      MCPService.handle_tool_call svc "update_todo" params =
        (.ok (.error e), [.update todo_id])) := by
  refine ⟨?_, ?_, ?_, ?_, ?_, ?_⟩
  · intro h
    simp [MCPService.handle_tool_call, MCPService.create_todo_tool, h]
  · intro h
    constructor
    · simp [MCPService.handle_tool_call, MCPService.update_todo_tool, h]
    · simp [MCPService.handle_tool_call, MCPService.delete_todo_tool, h]
  · intro todo_id e h1 h2
    simp [MCPService.handle_tool_call, MCPService.delete_todo_tool, h1, h2]
  · intro name hname
    rcases hname with rfl | rfl | rfl | rfl
    · rcases hr : MCPService.create_todo_tool svc params with ⟨r, log⟩
      cases r with
      | ok res => exact ⟨res, by simp [MCPService.handle_tool_call, hr]⟩
      | error e =>
        exact ⟨.error e, by simp [MCPService.handle_tool_call, hr]⟩
    · rcases hr : MCPService.list_todos_tool svc params with ⟨r, log⟩
      cases r with
      | ok res => exact ⟨res, by simp [MCPService.handle_tool_call, hr]⟩
      | error e =>
        exact ⟨.error e, by simp [MCPService.handle_tool_call, hr]⟩
    · rcases hr : MCPService.update_todo_tool svc params with ⟨r, log⟩
      cases r with
      | ok res => exact ⟨res, by simp [MCPService.handle_tool_call, hr]⟩
      | error e =>
        exact ⟨.error e, by simp [MCPService.handle_tool_call, hr]⟩
    · rcases hr : MCPService.delete_todo_tool svc params with ⟨r, log⟩
      cases r with
      | ok res => exact ⟨res, by simp [MCPService.handle_tool_call, hr]⟩
      | error e =>
        exact ⟨.error e, by simp [MCPService.handle_tool_call, hr]⟩
  · intro title todo_data e h1 h2 h3 h4
    simp [MCPService.handle_tool_call, MCPService.create_todo_tool, h1, h2,
      Priority.ofToken, h3, h4]
  · intro todo_id upd e h1 h2 h3 h4 h5
    simp [MCPService.handle_tool_call, MCPService.update_todo_tool,
      MCPService.update_todo_tool.updWithStatus,
      MCPService.update_todo_tool.updRun, h1, h2, h3, h4, h5]

/-- Witness for C9 with a service oracle whose delete always raises and a
parameter dict missing both `title` and `id`. -/
theorem C9_tool_call_errors_witness :
    MCPService.handle_tool_call
        ⟨fun _ => .error "db down", fun _ => .ok ⟨[], ⟨0, 1, 0⟩⟩,
         fun _ _ => .error "db down",
         fun _ => .error "Todo with id 5 not found"⟩
        "create_todo" {} =
      (.ok (.error "Missing required field: title"), []) ∧
    MCPService.handle_tool_call
        ⟨fun _ => .error "db down", fun _ => .ok ⟨[], ⟨0, 1, 0⟩⟩,
         fun _ _ => .error "db down",
         fun _ => .error "Todo with id 5 not found"⟩
        "delete_todo" { id := some 5 } =
      (.ok (.error "Todo with id 5 not found"), [.delete 5]) :=
  have h1 := C9_tool_call_errors
    ⟨fun _ => .error "db down", fun _ => .ok ⟨[], ⟨0, 1, 0⟩⟩,
     fun _ _ => .error "db down",
     fun _ => .error "Todo with id 5 not found"⟩ {}
  have h2 := C9_tool_call_errors
    ⟨fun _ => .error "db down", fun _ => .ok ⟨[], ⟨0, 1, 0⟩⟩,
     fun _ _ => .error "db down",
     fun _ => .error "Todo with id 5 not found"⟩
    { id := some 5 }
  ⟨h1.1 rfl, h2.2.2.1 5 "Todo with id 5 not found" rfl rfl⟩

/-- The retry loop performs at most `remaining` further provider
invocations. -/
lemma callGo_calls_le (provider : Provider) :
    ∀ remaining attempt st,
      ((AIService.callGo provider remaining attempt st).2).calls ≤
        st.calls + remaining := by
  intro remaining
  induction remaining with
  | zero =>
    intro attempt st
    simp [AIService.callGo]
  | succ n ih =>
    intro attempt st
    rw [AIService.callGo]
    cases hp : provider st.calls with
    | ok text => simp
    | error e =>
      by_cases hn : n = 0
      · subst hn
        simp
      · have hrec := ih (attempt + 1)
          { st with
            calls := st.calls + 1
            delays := st.delays ++ [2 ^ attempt] }
        simp only [show (n == 0) = false by simpa using hn, Bool.false_eq_true,
          if_false]
        simp only at hrec
        omega

/-- C3: on a cache miss the provider is invoked at most 3 times, with waits of
1 second then 2 seconds between consecutive attempts; a provider failing twice
then succeeding yields exactly 3 provider calls and, when the text parses, the
parsed structured result (cached, not a fallback); if all 3 attempts raise,
the call helper fails with an `AIServiceError` carrying the last underlying
error. -/
theorem C3_retry_backoff (provider : Provider)
    (parse : String → Except String SuggestionResponse)
    (description : String) (st : AIState) :
    ((AIService.callOpenai provider st).2.calls ≤ st.calls + 3) ∧
    (∀ r, provider st.calls = .ok r →
      AIService.callOpenai provider st =
        (.ok r, { st with calls := st.calls + 1 })) ∧
    (∀ e1 r, provider st.calls = .error e1 →
      provider (st.calls + 1) = .ok r →
      AIService.callOpenai provider st =
        (.ok r, { st with
          calls := st.calls + 2
          delays := st.delays ++ [1] })) ∧
    (∀ e1 e2 r, provider st.calls = .error e1 →
      provider (st.calls + 1) = .error e2 →
      provider (st.calls + 2) = .ok r →
      AIService.callOpenai provider st =
        (.ok r, { st with
          calls := st.calls + 3
          delays := st.delays ++ [1, 2] })) ∧
    (∀ e1 e2 e3, provider st.calls = .error e1 →
      provider (st.calls + 1) = .error e2 →
      provider (st.calls + 2) = .error e3 →
      AIService.callOpenai provider st =
        (.error ("Failed to call OpenAI after 3 attempts: " ++ e3),
         { st with
           calls := st.calls + 3
           delays := st.delays ++ [1, 2] })) ∧
    (∀ e1 e2 r v, st.cache.lookup ("suggest:" ++ description) = none →
      provider st.calls = .error e1 → provider (st.calls + 1) = .error e2 →
      provider (st.calls + 2) = .ok r → parse r = .ok v →
      AIService.generate_suggestions provider parse description st =
        .ok (v, { st with
          calls := st.calls + 3
          delays := st.delays ++ [1, 2]
          cache := st.cache ++ [("suggest:" ++ description, .sugg v)] })) := by
  refine ⟨callGo_calls_le provider 3 0 st, ?_, ?_, ?_, ?_, ?_⟩
  · intro r h0
    simp [AIService.callOpenai, AIService.callGo, h0]
  · intro e1 r h0 h1
    simp [AIService.callOpenai, AIService.callGo, h0, h1]
  · intro e1 e2 r h0 h1 h2
    simp [AIService.callOpenai, AIService.callGo, h0, h1, h2]
  · intro e1 e2 e3 h0 h1 h2
    simp [AIService.callOpenai, AIService.callGo, h0, h1, h2]
  · intro e1 e2 r v hmiss h0 h1 h2 hp
    have hcall : AIService.callOpenai provider st =
        (.ok r, { st with
          calls := st.calls + 3
          delays := st.delays ++ [1, 2] }) := by
      simp [AIService.callOpenai, AIService.callGo, h0, h1, h2]
    simp [AIService.generate_suggestions, hmiss, hcall, hp]

/-- Witness for C3: a provider failing twice then succeeding, a parser
accepting the returned text, and an empty cache. -/
theorem C3_retry_backoff_witness :
    AIService.generate_suggestions
        (fun i => if i == 0 then .error "boom1"
                  else if i == 1 then .error "boom2" else .ok "txt")
        (fun s => if s == "txt" then
            .ok { suggestions := [] } else .error "bad json")
        "organize files" {} =
      .ok ({ suggestions := [] },
        { calls := 3, delays := [1, 2],
          cache := [("suggest:" ++ "organize files",
            .sugg { suggestions := [] })] }) :=
  (C3_retry_backoff
    (fun i => if i == 0 then .error "boom1"
              else if i == 1 then .error "boom2" else .ok "txt")
    (fun s => if s == "txt" then
        .ok { suggestions := [] } else .error "bad json")
    "organize files" {}).2.2.2.2.2 "boom1" "boom2" "txt"
    { suggestions := [] } rfl rfl rfl rfl (by simp)

/-- Looking a key up past a prefix in which it does not occur. -/
lemma lookup_append_right (l1 l2 : List (String × CacheVal)) (k : String)
    (h : l1.lookup k = none) : (l1 ++ l2).lookup k = l2.lookup k := by
  induction l1 with
  | nil => rfl
  | cons x xs ih =>
    obtain ⟨a, b⟩ := x
    rw [List.cons_append]
    cases hk : (k == a) with
    | true => simp [List.lookup, hk] at h
    | false =>
      simp only [List.lookup, hk] at h ⊢
      exact ih h

/-- C8: for each AI request type, a provider-derived result is stored in the
cache under its input-derived key, while fallback results (provider failure or
parse failure) are never cached; two identical suggestion requests against a
provider that succeeds on the first cause exactly one provider call, the
second answered from the cache with an equal result. -/
theorem C8_cache_success_only (provider : Provider)
    (parseS : String → Except String SuggestionResponse)
    (parseP : String → Except String PrioritizationResponse)
    (parseB : String → Except String BreakdownResponse)
    (keyOf : List TodoSummary → String) (description task : String)
    (todos : List TodoSummary) (st : AIState) :
    (∀ r v, st.cache.lookup ("suggest:" ++ description) = none →
      provider st.calls = .ok r → parseS r = .ok v →
      AIService.generate_suggestions provider parseS description st =
        .ok (v, { st with
          calls := st.calls + 1
          cache := st.cache ++ [("suggest:" ++ description, .sugg v)] })) ∧
    (∀ e1 e2 e3, st.cache.lookup ("suggest:" ++ description) = none →
      provider st.calls = .error e1 → provider (st.calls + 1) = .error e2 →
      provider (st.calls + 2) = .error e3 →
      AIService.generate_suggestions provider parseS description st =
        .ok (AIService.fallbackSuggestions, { st with
          calls := st.calls + 3
          delays := st.delays ++ [1, 2] })) ∧
    (∀ r e, st.cache.lookup ("suggest:" ++ description) = none →
      provider st.calls = .ok r → parseS r = .error e →
      AIService.generate_suggestions provider parseS description st =
        .ok (AIService.fallbackSuggestions,
          { st with calls := st.calls + 1 })) ∧
    (∀ r v, st.cache.lookup ("prioritize:" ++ keyOf todos) = none →
      provider st.calls = .ok r → parseP r = .ok v →
      AIService.prioritize_todos provider parseP keyOf todos st =
        .ok (v, { st with
          calls := st.calls + 1
          cache := st.cache ++
            [("prioritize:" ++ keyOf todos, .prio v)] })) ∧
    (∀ e1 e2 e3 out,
      st.cache.lookup ("prioritize:" ++ keyOf todos) = none →
      provider st.calls = .error e1 → provider (st.calls + 1) = .error e2 →
      provider (st.calls + 2) = .error e3 →
      AIService.prioritize_todos provider parseP keyOf todos st = .ok out →
      out.2.cache = st.cache) ∧
    (∀ r v, st.cache.lookup ("breakdown:" ++ task) = none →
      provider st.calls = .ok r → parseB r = .ok v →
      AIService.breakdown_task provider parseB task st =
        .ok (v, { st with
          calls := st.calls + 1
          cache := st.cache ++ [("breakdown:" ++ task, .brk v)] })) ∧
    (∀ e1 e2 e3, st.cache.lookup ("breakdown:" ++ task) = none →
      provider st.calls = .error e1 → provider (st.calls + 1) = .error e2 →
      provider (st.calls + 2) = .error e3 →
      AIService.breakdown_task provider parseB task st =
        .ok (AIService.fallbackBreakdown, { st with
          calls := st.calls + 3
          delays := st.delays ++ [1, 2] })) ∧
    (∀ r v, st.cache.lookup ("suggest:" ++ description) = none →
      provider st.calls = .ok r → parseS r = .ok v →
      AIService.generate_suggestions provider parseS description
          { st with
            calls := st.calls + 1
            cache := st.cache ++ [("suggest:" ++ description, .sugg v)] } =
        .ok (v, { st with
          calls := st.calls + 1
          cache := st.cache ++ [("suggest:" ++ description, .sugg v)] })) := by
  have hok : ∀ r, provider st.calls = .ok r →
      AIService.callOpenai provider st =
        (.ok r, { st with calls := st.calls + 1 }) := by
    intro r h0
    simp [AIService.callOpenai, AIService.callGo, h0]
  have hfail : ∀ e1 e2 e3, provider st.calls = .error e1 →
      provider (st.calls + 1) = .error e2 →
      provider (st.calls + 2) = .error e3 →
      AIService.callOpenai provider st =
        (.error ("Failed to call OpenAI after 3 attempts: " ++ e3),
         { st with
           calls := st.calls + 3
           delays := st.delays ++ [1, 2] }) := by
    intro e1 e2 e3 h0 h1 h2
    simp [AIService.callOpenai, AIService.callGo, h0, h1, h2]
  refine ⟨?_, ?_, ?_, ?_, ?_, ?_, ?_, ?_⟩
  · intro r v hmiss h0 hp
    simp [AIService.generate_suggestions, hmiss, hok r h0, hp]
  · intro e1 e2 e3 hmiss h0 h1 h2
    simp [AIService.generate_suggestions, hmiss, hfail e1 e2 e3 h0 h1 h2]
  · intro r e hmiss h0 hp
    simp [AIService.generate_suggestions, hmiss, hok r h0, hp]
  · intro r v hmiss h0 hp
    simp [AIService.prioritize_todos, hmiss, hok r h0, hp]
  · intro e1 e2 e3 out hmiss h0 h1 h2 hout
    rw [AIService.prioritize_todos.eq_def] at hout
    simp only [hmiss, hfail e1 e2 e3 h0 h1 h2] at hout
    cases hfb : AIService.fallbackPrioritization todos with
    | ok fb =>
      rw [hfb] at hout
      simp only [Except.map] at hout
      cases hout
      rfl
    | error msg =>
      rw [hfb] at hout
      simp only [Except.map] at hout
      cases hout
  · intro r v hmiss h0 hp
    simp [AIService.breakdown_task, hmiss, hok r h0, hp]
  · intro e1 e2 e3 hmiss h0 h1 h2
    simp [AIService.breakdown_task, hmiss, hfail e1 e2 e3 h0 h1 h2]
  · intro r v hmiss h0 hp
    have hhit : ((st.cache ++
        [("suggest:" ++ description, CacheVal.sugg v)]).lookup
          ("suggest:" ++ description)) = some (.sugg v) := by
      rw [lookup_append_right _ _ _ hmiss]
      simp [List.lookup]
    rw [AIService.generate_suggestions.eq_def]
    simp only [hhit]

/-- Witness for C8: a provider succeeding immediately; the first request
caches, the second is a cache hit on the same state. -/
theorem C8_cache_success_only_witness :
    AIService.generate_suggestions (fun _ => .ok "resp")
        (fun _ => .ok { suggestions := [] }) "plan trip" {} =
      .ok ({ suggestions := [] },
        { calls := 1,
          cache := [("suggest:" ++ "plan trip",
            .sugg { suggestions := [] })], delays := [] }) ∧
    AIService.generate_suggestions (fun _ => .ok "resp")
        (fun _ => .ok { suggestions := [] }) "plan trip"
        { calls := 1,
          cache := [("suggest:" ++ "plan trip",
            .sugg { suggestions := [] })], delays := [] } =
      .ok ({ suggestions := [] },
        { calls := 1,
          cache := [("suggest:" ++ "plan trip",
            .sugg { suggestions := [] })], delays := [] }) :=
  have h := C8_cache_success_only (fun _ => .ok "resp")
    (fun _ => .ok { suggestions := [] })
    (fun _ => .error "unused") (fun _ => .error "unused2")
    (fun _ => "unused3") "plan trip" "unused4" [] {}
  ⟨h.1 "resp" { suggestions := [] } rfl rfl rfl,
   h.2.2.2.2.2.2.2 "resp" { suggestions := [] } rfl rfl rfl⟩

/-- C7: with an always-failing provider, `prioritize_todos` on
`[{id:1, priority:high, due:none}, {id:2, priority:low, due:none}]` does
return the fallback ranking `[1, 2]` annotated with the current priorities —
but on two same-priority todos of which exactly one is dated, the fallback
sort key compares a `datetime` against the `str` sentinel `"9999-12-31"` and
raises `TypeError`, which propagates instead of a fallback result, refuting
the claim that undated todos are treated as maximal/last. -/
theorem C7_fallback_prioritization_eval :
    ((AIService.prioritize_todos (fun _ => .error "provider down")
        (fun _ => .error "unparsed") (fun _ => "k")
        [{ id := 1, title := "fix bug", priority := .high },
         { id := 2, title := "tidy desk", priority := .low }]
        {}).toOption.map
      (fun out => out.1.ranked_todos.map
        (fun p => (p.todo_id, p.recommended_priority))) =
      some [(1, Priority.high), (2, Priority.low)]) ∧
    ((AIService.prioritize_todos (fun _ => .error "provider down")
        (fun _ => .error "unparsed") (fun _ => "k")
        [{ id := 1, title := "fix bug", due_date := some 100,
           priority := .high },
         { id := 2, title := "tidy desk", priority := .high }]
        {}).toOption = none) := by
  constructor <;> rfl

end TodoApp
